import Mathlib

/-!
# Verification of `CIRS2GCRS.c` (TrackerComponentLibrary)

A shallow embedding of the MEX entry point
`src/Coordinate Systems/Celestial and Terrestrial Systems/CIRS2GCRS.c`
and proofs about its behaviour.  MATLAB `double` values are modelled as
integers: the entry point itself only moves scalar values around, adds
pole offsets, and forms sums of products in the 3×3 matrix-vector
product, so any commutative ring models the data flow exactly; the
claims under study concern the structure of the computation — which
values flow where — not floating-point rounding.
MATLAB `mxArray` real double matrices are modelled as dimensions plus a
column-major data list.  The SOFA library routines `iauTttai`,
`iauTaiutc`, `iauXys06a` and `iauC2ixys`, and the MATLAB function
`getEOP`, are external collaborators; they are modelled as oracle fields
of a `SofaEnv` record, so every theorem quantifying over `SofaEnv` holds
for every possible behaviour of those collaborators.  The tiny SOFA
vector/matrix helpers `iauTr` (matrix transpose) and `iauRxp`
(matrix-times-3-vector) are embedded directly from their SOFA
definitions, since the code's output is built from them.

Reading past the end of the `prhs` argument array is undefined behaviour
in C; the embedding models such an access as the distinguished outcome
`MexErr.outOfBoundsArg`.
-/

namespace CIRS2GCRS

/-- A MATLAB real double matrix: `m` rows, `n` columns, and the data in
column-major order (entry `(i,j)` sits at flat index `i + m*j`).  The
MEX source only ever uses real double arrays, so
`checkRealDoubleArray` is vacuous in the model. -/
structure MxArray where
  m : Nat
  n : Nat
  data : List ℤ
deriving DecidableEq

/-- `mxIsEmpty`: a MATLAB array is empty when it has no elements. -/
def MxArray.isEmpty (a : MxArray) : Prop := a.m = 0 ∨ a.n = 0

instance (a : MxArray) : Decidable a.isEmpty := by
  unfold MxArray.isEmpty; infer_instance

/-- `getDoubleFromMatlab` (from `MexValidation.h`, not part of this
source file): extracts the scalar value of a numeric MATLAB array.
Modelled as reading the first stored element. -/
def getDoubleFromMatlab (a : MxArray) : ℤ := a.data.getD 0 0

/-- A 3×3 matrix of doubles, `r i j` being row `i`, column `j`
(C array `r[i][j]`). -/
def Mat3 : Type := Fin 3 → Fin 3 → ℤ

instance : DecidableEq Mat3 := by unfold Mat3; infer_instance

/-- SOFA `iauTr`: transpose an r-matrix, `rt[i][j] = r[j][i]`. -/
def iauTr (r : Mat3) : Mat3 := fun i j => r j i

/-- SOFA `iauRxp`: multiply a p-vector by an r-matrix,
`rp[i] = r[i][0]*p[0] + r[i][1]*p[1] + r[i][2]*p[2]`.  The C routine
reads exactly three components of `p`; missing components read as 0
here (the source never calls it on fewer than three). -/
def iauRxp (r : Mat3) (p : List ℤ) : List ℤ :=
  [ r 0 0 * p.getD 0 0 + r 0 1 * p.getD 1 0 + r 0 2 * p.getD 2 0,
    r 1 0 * p.getD 0 0 + r 1 1 * p.getD 1 0 + r 1 2 * p.getD 2 0,
    r 2 0 * p.getD 0 0 + r 2 1 * p.getD 1 0 + r 2 2 * p.getD 2 0 ]

/-- The external collaborators of the MEX function, as oracles.
`iauTttai` and `iauTaiutc` return their C status code together with the
two output date components; `getEOP` returns the polar-motion array
(discarded by the source) and the `dXdY` array. -/
structure SofaEnv where
  iauTttai : ℤ → ℤ → Int × ℤ × ℤ
  iauTaiutc : ℤ → ℤ → Int × ℤ × ℤ
  getEOP : ℤ → ℤ → MxArray × MxArray
  iauXys06a : ℤ → ℤ → ℤ × ℤ × ℤ
  iauC2ixys : ℤ → ℤ → ℤ → Mat3

/-- The distinct ways `mexFunction` aborts (each a `mexErrMsgTxt` call in
the source, except `outOfBoundsArg`, which models the undefined
behaviour of reading `prhs[4]` when at most 4 right-hand-side arguments
exist). -/
inductive MexErr where
  | wrongNumInputs
  | wrongNumOutputs
  | badDimensionality
  | taiError
  | unacceptableDate
  | getEOPError
  | poleOffsetDim
  | outOfBoundsArg
deriving DecidableEq

/-- The observable result of a successful call: the transformed batch
(`plhs[0]`), the optional rotation matrix (`plhs[1]`, present iff
`nlhs > 1`), and whether the "Dubious Date entered." warning was
issued. -/
structure MexOutput where
  vec : MxArray
  rotMat : Option MxArray
  dubiousWarning : Bool
deriving DecidableEq

/-- Column `i` of a column-major data list with `numRow` rows: the C
pointer expression `data + numRow*i`, read for `numRow` entries. -/
def getCol (numRow : Nat) (data : List ℤ) (i : Nat) : List ℤ :=
  (data.drop (numRow * i)).take numRow

/-- One loop iteration of the transform (source lines 181–193): the
position part `iauRxp(CIRS2GCRS, xVec+numRow*curVec, ...)` and, when
`numRow > 3`, the velocity part at offset 3 with the same matrix. -/
def transformCol (R : Mat3) (numRow : Nat) (col : List ℤ) : List ℤ :=
  iauRxp R col ++ (if 3 < numRow then iauRxp R (col.drop 3) else [])

/-- The whole transform loop: the output data list, column by column. -/
def transformData (R : Mat3) (numRow numVec : Nat) (data : List ℤ) : List ℤ :=
  ((List.range numVec).map fun i => transformCol R numRow (getCol numRow data i)).flatten

/-- Source lines 156–169: evaluate `iauXys06a` at the TT epoch, add the
pole offsets to x and y, and build the GCRS-to-CIRS matrix with
`iauC2ixys`. -/
def computeGCRS2CIRS (env : SofaEnv) (TT1 TT2 dX dY : ℤ) : Mat3 :=
  let xys := env.iauXys06a TT1 TT2
  env.iauC2ixys (xys.1 + dX) (xys.2.1 + dY) xys.2.2

/-- Source line 172: `iauTr(GCRS2CIRS, CIRS2GCRS)`. -/
def computeCIRS2GCRS (env : SofaEnv) (TT1 TT2 dX dY : ℤ) : Mat3 :=
  iauTr (computeGCRS2CIRS env TT1 TT2 dX dY)

/-- Source lines 198–209: the optional second output, a 3×3 MATLAB
array filled by `elPtr[i+3*j] = CIRS2GCRS[i][j]`.  MATLAB stores
column-major, so flat index `i+3*j` is row `i`, column `j`; the
resulting data list is spelled out below. -/
def rotMatOutput (C : Mat3) : MxArray :=
  ⟨3, 3, [C 0 0, C 1 0, C 2 0, C 0 1, C 1 1, C 2 1, C 0 2, C 1 2, C 2 2]⟩

/-- Source lines 89–154: resolve the pole offsets `(dX, dY)` and the
dubious-date warning flag.  When fewer than 4 inputs are given or
`prhs[3]` is empty, the offsets come from TT→TAI→UTC conversion and a
`getEOP` lookup; otherwise the source reads `prhs[4]` — one past the
last possible argument, modelled as `.outOfBoundsArg`. -/
def resolveDxDy (env : SofaEnv) (prhs : List MxArray) (TT1 TT2 : ℤ) :
    Except MexErr (ℤ × ℤ × Bool) :=
  if prhs.length < 4 ∨ (prhs.getD 3 ⟨0, 0, []⟩).isEmpty then
    -- lines 98–101: iauTttai, nonzero status is fatal
    let tai := env.iauTttai TT1 TT2
    if tai.1 ≠ 0 then .error .taiError
    else
      -- lines 102–112: iauTaiutc; 1 warns, -1 is fatal
      let utc := env.iauTaiutc tai.2.1 tai.2.2
      if utc.1 = -1 then .error .unacceptableDate
      else
        -- lines 118–134: getEOP; second return must be 2×1
        let eop := env.getEOP utc.2.1 utc.2.2
        if (eop.2.m = 2 ∧ eop.2.n = 1) then
          .ok (eop.2.data.getD 0 0, eop.2.data.getD 1 0, utc.1 = 1)
        else .error .getEOPError
  else
    -- lines 138–153: the source indexes prhs[4] here, not prhs[3]
    match prhs.get? 4 with
    | none => .error .outOfBoundsArg
    | some a =>
      if (a.m = 2 ∧ a.n = 1) ∨ (a.m = 1 ∧ a.n = 2) then
        .ok (a.data.getD 0 0, a.data.getD 1 0, false)
      else .error .poleOffsetDim

/-- The MEX entry point (source lines 59–211).  `nlhs` is the requested
number of left-hand-side outputs and `prhs` the right-hand-side
argument list (`nrhs = prhs.length`). -/
def mexFunction (env : SofaEnv) (nlhs : Nat) (prhs : List MxArray) :
    Except MexErr MexOutput :=
  let nrhs := prhs.length
  if nrhs < 3 ∨ 4 < nrhs then .error .wrongNumInputs
  else if 2 < nlhs then .error .wrongNumOutputs
  else
    let xArr := prhs.getD 0 ⟨0, 0, []⟩
    let numRow := xArr.m
    let numVec := xArr.n
    if ¬(numRow = 3 ∨ numRow = 6) then .error .badDimensionality
    else
      let TT1 := getDoubleFromMatlab (prhs.getD 1 ⟨0, 0, []⟩)
      let TT2 := getDoubleFromMatlab (prhs.getD 2 ⟨0, 0, []⟩)
      match resolveDxDy env prhs TT1 TT2 with
      | .error e => .error e
      | .ok (dX, dY, warn) =>
        let C := computeCIRS2GCRS env TT1 TT2 dX dY
        .ok { vec := ⟨numRow, numVec, transformData C numRow numVec xArr.data⟩,
              rotMat := if 1 < nlhs then some (rotMatOutput C) else none,
              dubiousWarning := warn }

/-- A concrete, benign instantiation of the external collaborators, used
to evaluate the embedding at concrete inputs: the time conversions
succeed and pass the date through, `getEOP` returns a well-formed 2×1
pole-offset pair, and `iauC2ixys` returns a fixed matrix. -/
def env0 : SofaEnv :=
  { iauTttai := fun a b => (0, a, b)
    iauTaiutc := fun a b => (0, a, b)
    getEOP := fun _ _ => (⟨2, 1, [5, 7]⟩, ⟨2, 1, [11, 13]⟩)
    iauXys06a := fun a b => (a + 2, b + 4, 3)
    iauC2ixys := fun x y s => fun i j => x + y * (i.1 : ℤ) + s * (j.1 : ℤ) }

/-! ## Helper lemmas -/

theorem iauRxp_length (R : Mat3) (p : List ℤ) : (iauRxp R p).length = 3 := rfl

theorem iauRxp_take (R : Mat3) (p : List ℤ) : iauRxp R (p.take 3) = iauRxp R p := by
  rcases p with _ | ⟨a, _ | ⟨b, _ | ⟨c, t⟩⟩⟩ <;> rfl

theorem transformCol_length (R : Mat3) (numRow : Nat) (col : List ℤ)
    (h : numRow = 3 ∨ numRow = 6) : (transformCol R numRow col).length = numRow := by
  rcases h with h | h <;> subst h <;> simp [transformCol, iauRxp]

theorem flatten_getCol {c : Nat} (l : List (List ℤ)) (hc : ∀ x ∈ l, x.length = c)
    (i : Nat) (hi : i < l.length) :
    getCol c l.flatten i = l.getD i [] := by
  induction l generalizing i with
  | nil => simp at hi
  | cons a t ih =>
    have ha : a.length = c := hc a (by simp)
    cases i with
    | zero =>
      simp only [getCol, Nat.mul_zero, List.drop_zero, List.flatten_cons,
        List.getD_cons_zero]
      rw [← ha, List.take_left]
    | succ n =>
      simp only [getCol, List.flatten_cons, List.getD_cons_succ]
      have hd : c * (n + 1) = a.length + c * n := by rw [ha]; ring
      rw [hd, List.drop_append]
      exact ih (fun x hx => hc x (by simp [hx])) n (by simpa using hi)

theorem transformData_getCol (R : Mat3) (numRow numVec : Nat) (data : List ℤ)
    (h : numRow = 3 ∨ numRow = 6) (i : Nat) (hi : i < numVec) :
    getCol numRow (transformData R numRow numVec data) i
      = transformCol R numRow (getCol numRow data i) := by
  unfold transformData
  rw [flatten_getCol _ _ i (by simpa using hi)]
  · simp [List.getD_eq_getElem?_getD, List.getElem?_range hi]
  · intro x hx
    simp only [List.mem_map, List.mem_range] at hx
    obtain ⟨j, _, rfl⟩ := hx
    exact transformCol_length R numRow _ h

theorem transformData_length (R : Mat3) (numRow numVec : Nat) (data : List ℤ)
    (h : numRow = 3 ∨ numRow = 6) :
    (transformData R numRow numVec data).length = numRow * numVec := by
  unfold transformData
  rw [List.length_flatten, List.map_map]
  have hrep : ((List.range numVec).map
      (List.length ∘ fun i => transformCol R numRow (getCol numRow data i)))
      = List.replicate numVec numRow := by
    apply List.eq_replicate_iff.mpr
    refine ⟨by simp, ?_⟩
    intro b hb
    simp only [List.mem_map, List.mem_range, Function.comp] at hb
    obtain ⟨j, _, rfl⟩ := hb
    exact transformCol_length R numRow _ h
  rw [hrep, List.sum_replicate, smul_eq_mul, Nat.mul_comm]

theorem getCol_length_le (numRow : Nat) (data : List ℤ) (i : Nat) :
    (getCol numRow data i).length ≤ numRow := by
  simp [getCol]

theorem take_three_append (R : Mat3) (p l : List ℤ) :
    (iauRxp R p ++ l).take 3 = iauRxp R p := by
  have h := List.take_left (iauRxp R p) l
  rwa [iauRxp_length] at h

theorem drop_three_append (R : Mat3) (p l : List ℤ) :
    (iauRxp R p ++ l).drop 3 = l := by
  have h := List.drop_left (iauRxp R p) l
  rwa [iauRxp_length] at h

/-! ## Concrete values used by the evaluation witnesses -/

def Rex : Mat3 := fun i j => (i.1 : ℤ) + 3 * (j.1 : ℤ) + 1

def dataEx : List ℤ := [1, 2, 3, 4, 5, 6, 7, 8, 9, 10, 11, 12]

/-! ## Claim theorems -/

/-- C3: for every batch of uniform per-vector dimension 3 or 6 and every
vector index `i` in the batch, the output's first three components at
slot `i` equal `R` applied on the left to the input's first three
components at slot `i`; when the dimension is 6, output components 3..5
at slot `i` equal `R` applied to input components 3..5 at slot `i`,
using the identical matrix `R` as the position half. -/
theorem slot_transform_spec (R : Mat3) (d N : Nat) (data : List ℤ) (i : Nat)
    (hd : d = 3 ∨ d = 6) (hi : i < N) :
    (getCol d (transformData R d N data) i).take 3
        = iauRxp R ((getCol d data i).take 3)
    ∧ (d = 6 →
      (getCol d (transformData R d N data) i).drop 3
        = iauRxp R ((getCol d data i).drop 3)) := by
  rw [transformData_getCol R d N data hd i hi]
  constructor
  · rw [transformCol, take_three_append, iauRxp_take]
  · intro h6
    subst h6
    rw [transformCol, if_pos (by norm_num), drop_three_append]

theorem slot_transform_spec_witness :
    ((6 : Nat) = 3 ∨ (6 : Nat) = 6) ∧ (1 : Nat) < 2 ∧
    ((getCol 6 (transformData Rex 6 2 dataEx) 1).take 3
        = iauRxp Rex ((getCol 6 dataEx 1).take 3)
    ∧ ((6 : Nat) = 6 →
      (getCol 6 (transformData Rex 6 2 dataEx) 1).drop 3
        = iauRxp Rex ((getCol 6 dataEx 1).drop 3))) :=
  ⟨by decide, by decide, slot_transform_spec Rex 6 2 dataEx 1 (by decide) (by decide)⟩

/-- C4: the CIRS→GCRS matrix used for the transform (and optionally
returned) is the element-for-element transpose of the internally
computed GCRS→CIRS matrix: `CIRS2GCRS[i][j] = GCRS2CIRS[j][i]`, with no
arithmetic beyond the element move (`iauTr` only moves entries). -/
theorem cirs2gcrs_is_transpose (env : SofaEnv) (TT1 TT2 dX dY : ℤ) (i j : Fin 3) :
    computeCIRS2GCRS env TT1 TT2 dX dY i j
      = computeGCRS2CIRS env TT1 TT2 dX dY j i := rfl

/-- C8: the output at slot `i` depends only on `R` and the input vector
at slot `i`: it equals the one-column transform of that vector alone,
it equals the transform of a singleton batch holding only that vector,
and any other batch that agrees with the input at some slot `j` yields
the same output there. -/
theorem batch_independence (R : Mat3) (d N M i j : Nat) (data data' : List ℤ)
    (hd : d = 3 ∨ d = 6) (hi : i < N) (hj : j < M)
    (hcol : getCol d data i = getCol d data' j) :
    getCol d (transformData R d N data) i = transformCol R d (getCol d data i)
    ∧ getCol d (transformData R d N data) i
        = getCol d (transformData R d 1 (getCol d data i)) 0
    ∧ getCol d (transformData R d N data) i
        = getCol d (transformData R d M data') j := by
  have h1 := transformData_getCol R d N data hd i hi
  have h2 := transformData_getCol R d M data' hd j hj
  have h3 := transformData_getCol R d 1 (getCol d data i) hd 0 (by norm_num)
  refine ⟨h1, ?_, ?_⟩
  · rw [h1, h3]
    congr 1
    simp [getCol, List.take_take]
  · rw [h1, h2, hcol]

theorem batch_independence_witness :
    ((3 : Nat) = 3 ∨ (3 : Nat) = 6) ∧ (0 : Nat) < 2 ∧ (1 : Nat) < 3
    ∧ getCol 3 dataEx 0 = getCol 3 [4, 5, 6, 1, 2, 3, 9, 9, 9] 1
    ∧ (getCol 3 (transformData Rex 3 2 dataEx) 0
          = transformCol Rex 3 (getCol 3 dataEx 0)
      ∧ getCol 3 (transformData Rex 3 2 dataEx) 0
          = getCol 3 (transformData Rex 3 1 (getCol 3 dataEx 0)) 0
      ∧ getCol 3 (transformData Rex 3 2 dataEx) 0
          = getCol 3 (transformData Rex 3 3 [4, 5, 6, 1, 2, 3, 9, 9, 9]) 1) :=
  ⟨by decide, by decide, by decide, by decide,
    batch_independence Rex 3 2 3 0 1 dataEx [4, 5, 6, 1, 2, 3, 9, 9, 9]
      (by decide) (by decide) (by decide) (by decide)⟩

/-- Shared helper: on any well-formed call that supplies a non-empty
fourth argument, the source's explicit-pole-offset branch reads
`prhs[4]` — one past the end of the argument list — so the embedding
aborts with the out-of-bounds marker, for every environment and every
shape of the fourth argument. -/
theorem explicitPath_outOfBounds (env : SofaEnv) (nlhs : Nat) (xA t1 t2 d : MxArray)
    (hl : nlhs ≤ 2) (hd : xA.m = 3 ∨ xA.m = 6) (hne : ¬ d.isEmpty) :
    mexFunction env nlhs [xA, t1, t2, d] = .error .outOfBoundsArg := by
  have hres : resolveDxDy env [xA, t1, t2, d] (getDoubleFromMatlab t1)
      (getDoubleFromMatlab t2) = .error .outOfBoundsArg := by
    simp only [resolveDxDy]
    rw [if_neg]
    · rfl
    · rintro (h | h)
      · norm_num at h
      · exact hne (by simpa using h)
  simp only [mexFunction, List.getD_cons_zero, List.getD_cons_succ]
  rw [if_neg (by norm_num), if_neg (by omega), if_neg (not_not_intro hd), hres]

/-- C1 (refuted by the code, confirmed as the intent): the claim says a
non-empty fourth input's two values are used as `(dX, dY)`.  The source
instead indexes `prhs[4]`, one past the last possible argument
(`nrhs ≤ 4`), so for every environment the caller-supplied values are
never read and the embedding aborts at the out-of-bounds access — even
when the fourth argument is a well-formed 2×1 pair. -/
theorem suppliedOffsets_never_used (env : SofaEnv) (nlhs : Nat) (xA t1 t2 d : MxArray)
    (hl : nlhs ≤ 2) (hd : xA.m = 3 ∨ xA.m = 6) (h21 : d.m = 2 ∧ d.n = 1) :
    mexFunction env nlhs [xA, t1, t2, d] = .error .outOfBoundsArg :=
  explicitPath_outOfBounds env nlhs xA t1 t2 d hl hd
    (by rintro (h | h) <;> omega)

theorem suppliedOffsets_never_used_witness :
    (1 : Nat) ≤ 2 ∧ ((3 : Nat) = 3 ∨ (3 : Nat) = 6) ∧ ((2 : Nat) = 2 ∧ (1 : Nat) = 1)
    ∧ mexFunction env0 1 [⟨3, 1, [1, 0, 0]⟩, ⟨1, 1, [2451545]⟩, ⟨1, 1, [0]⟩,
        ⟨2, 1, [11, 13]⟩] = .error .outOfBoundsArg :=
  ⟨by decide, by decide, by decide,
    suppliedOffsets_never_used env0 1 ⟨3, 1, [1, 0, 0]⟩ ⟨1, 1, [2451545]⟩ ⟨1, 1, [0]⟩
      ⟨2, 1, [11, 13]⟩ (by decide) (by decide) (by decide)⟩

/-- C2 (refuted by the code, confirmed as the intent): the claim says a
malformed non-empty fourth input (for example 3×1) triggers the
pole-offset dimensionality error.  The source never inspects `prhs[3]`:
it validates and reads `prhs[4]`, past the end of the argument list, so
the embedding aborts with the out-of-bounds marker — which is not the
documented pole-offset dimensionality error. -/
theorem malformedOffsets_never_checked (env : SofaEnv) (nlhs : Nat) (xA t1 t2 d : MxArray)
    (hl : nlhs ≤ 2) (hd : xA.m = 3 ∨ xA.m = 6) (h31 : d.m = 3 ∧ d.n = 1) :
    mexFunction env nlhs [xA, t1, t2, d] = .error .outOfBoundsArg
    ∧ MexErr.outOfBoundsArg ≠ MexErr.poleOffsetDim :=
  ⟨explicitPath_outOfBounds env nlhs xA t1 t2 d hl hd
      (by rintro (h | h) <;> omega),
    by decide⟩

theorem malformedOffsets_never_checked_witness :
    (1 : Nat) ≤ 2 ∧ ((3 : Nat) = 3 ∨ (3 : Nat) = 6) ∧ ((3 : Nat) = 3 ∧ (1 : Nat) = 1)
    ∧ (mexFunction env0 1 [⟨3, 1, [1, 0, 0]⟩, ⟨1, 1, [2451545]⟩, ⟨1, 1, [0]⟩,
          ⟨3, 1, [1, 2, 3]⟩] = .error .outOfBoundsArg
        ∧ MexErr.outOfBoundsArg ≠ MexErr.poleOffsetDim) :=
  ⟨by decide, by decide, by decide,
    malformedOffsets_never_checked env0 1 ⟨3, 1, [1, 0, 0]⟩ ⟨1, 1, [2451545]⟩
      ⟨1, 1, [0]⟩ ⟨3, 1, [1, 2, 3]⟩ (by decide) (by decide) (by decide)⟩

/-- C6: a batch whose per-vector dimension is neither 3 nor 6 is
rejected with the bad-dimensionality error for every environment — the
universal quantification over the environment shows that no date
resolution, EOP lookup or rotation computation influences or precedes
the rejection — and no output is produced (`Except.error` carries
none). -/
theorem badDimensionality_immediate (env : SofaEnv) (nlhs : Nat) (prhs : List MxArray)
    (hlen : 3 ≤ prhs.length ∧ prhs.length ≤ 4) (hl : nlhs ≤ 2)
    (hd : ¬((prhs.getD 0 ⟨0, 0, []⟩).m = 3 ∨ (prhs.getD 0 ⟨0, 0, []⟩).m = 6)) :
    mexFunction env nlhs prhs = .error .badDimensionality := by
  simp only [mexFunction]
  rw [if_neg (by omega), if_neg (by omega), if_pos hd]

theorem badDimensionality_immediate_witness :
    ((3 : Nat) ≤ 3 ∧ (3 : Nat) ≤ 4) ∧ (1 : Nat) ≤ 2
    ∧ ¬(((4 : Nat) = 3 ∨ (4 : Nat) = 6))
    ∧ mexFunction env0 1 [⟨4, 1, [1, 0, 0, 0]⟩, ⟨1, 1, [2451545]⟩, ⟨1, 1, [0]⟩]
        = .error .badDimensionality :=
  ⟨by decide, by decide, by decide,
    badDimensionality_immediate env0 1
      [⟨4, 1, [1, 0, 0, 0]⟩, ⟨1, 1, [2451545]⟩, ⟨1, 1, [0]⟩]
      (by decide) (by decide) (by decide)⟩

/-- C10: a present-but-empty fourth argument is not a shape error: the
call behaves exactly as if the argument had been omitted, resolving
`(dX, dY)` through the TT→TAI→UTC conversion and the external EOP
lookup before building the rotation matrix. -/
theorem emptyOffsets_like_omitted (env : SofaEnv) (nlhs : Nat) (xA t1 t2 e : MxArray)
    (he : e.isEmpty) :
    mexFunction env nlhs [xA, t1, t2, e] = mexFunction env nlhs [xA, t1, t2] := by
  have hres : resolveDxDy env [xA, t1, t2, e] (getDoubleFromMatlab t1)
      (getDoubleFromMatlab t2)
      = resolveDxDy env [xA, t1, t2] (getDoubleFromMatlab t1)
        (getDoubleFromMatlab t2) := by
    simp only [resolveDxDy]
    rw [if_pos (Or.inr (by simpa using he)), if_pos (Or.inl (by norm_num))]
  simp only [mexFunction, List.getD_cons_zero, List.getD_cons_succ]
  rw [hres]
  norm_num

theorem emptyOffsets_like_omitted_witness :
    (MxArray.mk 0 0 []).isEmpty
    ∧ mexFunction env0 2 [⟨3, 1, [1, 0, 0]⟩, ⟨1, 1, [2451545]⟩, ⟨1, 1, [0]⟩, ⟨0, 0, []⟩]
        = mexFunction env0 2 [⟨3, 1, [1, 0, 0]⟩, ⟨1, 1, [2451545]⟩, ⟨1, 1, [0]⟩] :=
  ⟨by decide,
    emptyOffsets_like_omitted env0 2 ⟨3, 1, [1, 0, 0]⟩ ⟨1, 1, [2451545]⟩ ⟨1, 1, [0]⟩
      ⟨0, 0, []⟩ (by decide)⟩

/-- Shared helper: on a well-formed three-argument call, `mexFunction`
reduces to the pole-offset resolution followed by the rotation build
and the transform loop. -/
theorem mexFunction_three (env : SofaEnv) (nlhs : Nat) (xA t1 t2 : MxArray)
    (hl : nlhs ≤ 2) (hd : xA.m = 3 ∨ xA.m = 6) :
    mexFunction env nlhs [xA, t1, t2]
      = match resolveDxDy env [xA, t1, t2] (getDoubleFromMatlab t1)
          (getDoubleFromMatlab t2) with
        | .error e => .error e
        | .ok (dX, dY, warn) =>
          .ok { vec := ⟨xA.m, xA.n, transformData
                  (computeCIRS2GCRS env (getDoubleFromMatlab t1)
                    (getDoubleFromMatlab t2) dX dY) xA.m xA.n xA.data⟩,
                rotMat := if 1 < nlhs then
                    some (rotMatOutput (computeCIRS2GCRS env
                      (getDoubleFromMatlab t1) (getDoubleFromMatlab t2) dX dY))
                  else none,
                dubiousWarning := warn } := by
  simp only [mexFunction, List.getD_cons_zero, List.getD_cons_succ]
  rw [if_neg (by norm_num), if_neg (by omega), if_neg (not_not_intro hd)]

/-- Shared helper: the lookup path of `resolveDxDy` on a three-argument
call, with the collaborator responses named. -/
theorem resolveDxDy_lookup (env : SofaEnv) (xA t1 t2 : MxArray)
    (r1 : Int) (j1 j2 : ℤ) (r2 : Int) (u1 u2 : ℤ) (eop : MxArray)
    (htai : env.iauTttai (getDoubleFromMatlab t1) (getDoubleFromMatlab t2)
      = (r1, j1, j2))
    (hutc : env.iauTaiutc j1 j2 = (r2, u1, u2))
    (heop : (env.getEOP u1 u2).2 = eop) :
    resolveDxDy env [xA, t1, t2] (getDoubleFromMatlab t1) (getDoubleFromMatlab t2)
      = if r1 ≠ 0 then .error .taiError
        else if r2 = -1 then .error .unacceptableDate
        else if eop.m = 2 ∧ eop.n = 1 then
          .ok (eop.data.getD 0 0, eop.data.getD 1 0, decide (r2 = 1))
        else .error .getEOPError := by
  simp only [resolveDxDy]
  rw [if_pos (Or.inl (by norm_num)), htai]
  simp only [htai, hutc, heop]

/-- C5: on the EOP-lookup fallback path, a TT→TAI failure aborts
fatally; a TAI→UTC dubious date produces a warning and a result; a
TAI→UTC unacceptable date aborts fatally; a wrongly-shaped EOP-lookup
response aborts fatally.  Every fatal abort is an `Except.error`, which
carries no output batch. -/
theorem lookup_error_taxonomy (env : SofaEnv) (nlhs : Nat) (xA t1 t2 : MxArray)
    (r1 : Int) (j1 j2 : ℤ) (r2 : Int) (u1 u2 : ℤ) (eop : MxArray)
    (hd : xA.m = 3 ∨ xA.m = 6) (hl : nlhs ≤ 2)
    (htai : env.iauTttai (getDoubleFromMatlab t1) (getDoubleFromMatlab t2)
      = (r1, j1, j2))
    (hutc : env.iauTaiutc j1 j2 = (r2, u1, u2))
    (heop : (env.getEOP u1 u2).2 = eop) :
    (r1 ≠ 0 → mexFunction env nlhs [xA, t1, t2] = .error .taiError)
    ∧ (r1 = 0 → r2 = -1 →
        mexFunction env nlhs [xA, t1, t2] = .error .unacceptableDate)
    ∧ (r1 = 0 → r2 = 1 → eop.m = 2 ∧ eop.n = 1 →
        ∃ out, mexFunction env nlhs [xA, t1, t2] = .ok out
          ∧ out.dubiousWarning = true)
    ∧ (r1 = 0 → r2 ≠ -1 → ¬(eop.m = 2 ∧ eop.n = 1) →
        mexFunction env nlhs [xA, t1, t2] = .error .getEOPError) := by
  have hmex := mexFunction_three env nlhs xA t1 t2 hl hd
  have hres := resolveDxDy_lookup env xA t1 t2 r1 j1 j2 r2 u1 u2 eop htai hutc heop
  rw [hres] at hmex
  refine ⟨?_, ?_, ?_, ?_⟩
  · intro h1
    rw [if_pos h1] at hmex
    exact hmex
  · intro h0 hm1
    rw [if_neg (not_not_intro h0), if_pos hm1] at hmex
    exact hmex
  · intro h0 h1 hshape
    rw [if_neg (not_not_intro h0), if_neg (by omega), if_pos hshape] at hmex
    exact ⟨_, hmex, by simp [h1]⟩
  · intro h0 hm1 hshape
    rw [if_neg (not_not_intro h0), if_neg hm1, if_neg hshape] at hmex
    exact hmex

theorem lookup_error_taxonomy_witness :
    ((3 : Nat) = 3 ∨ (3 : Nat) = 6) ∧ (2 : Nat) ≤ 2
    ∧ env0.iauTttai (getDoubleFromMatlab ⟨1, 1, [2451545]⟩)
        (getDoubleFromMatlab ⟨1, 1, [0]⟩) = ((0 : Int), (2451545 : ℤ), (0 : ℤ))
    ∧ env0.iauTaiutc 2451545 0 = ((0 : Int), (2451545 : ℤ), (0 : ℤ))
    ∧ (env0.getEOP 2451545 0).2 = ⟨2, 1, [11, 13]⟩
    ∧ (((0 : Int) ≠ 0 →
          mexFunction env0 2 [⟨3, 1, [1, 0, 0]⟩, ⟨1, 1, [2451545]⟩, ⟨1, 1, [0]⟩]
            = .error .taiError)
      ∧ ((0 : Int) = 0 → (0 : Int) = -1 →
          mexFunction env0 2 [⟨3, 1, [1, 0, 0]⟩, ⟨1, 1, [2451545]⟩, ⟨1, 1, [0]⟩]
            = .error .unacceptableDate)
      ∧ ((0 : Int) = 0 → (0 : Int) = 1 →
          (MxArray.mk 2 1 [11, 13]).m = 2 ∧ (MxArray.mk 2 1 [11, 13]).n = 1 →
          ∃ out, mexFunction env0 2 [⟨3, 1, [1, 0, 0]⟩, ⟨1, 1, [2451545]⟩, ⟨1, 1, [0]⟩]
            = .ok out ∧ out.dubiousWarning = true)
      ∧ ((0 : Int) = 0 → (0 : Int) ≠ -1 →
          ¬((MxArray.mk 2 1 [11, 13]).m = 2 ∧ (MxArray.mk 2 1 [11, 13]).n = 1) →
          mexFunction env0 2 [⟨3, 1, [1, 0, 0]⟩, ⟨1, 1, [2451545]⟩, ⟨1, 1, [0]⟩]
            = .error .getEOPError)) :=
  ⟨by decide, by decide, by decide, by decide, by decide,
    lookup_error_taxonomy env0 2 ⟨3, 1, [1, 0, 0]⟩ ⟨1, 1, [2451545]⟩ ⟨1, 1, [0]⟩
      0 2451545 0 0 2451545 0 ⟨2, 1, [11, 13]⟩
      (by decide) (by decide) (by decide) (by decide) (by decide)⟩

/-! ## Concrete successful calls used by the evaluation witnesses -/

def callEx : List MxArray := [⟨3, 1, [1, 0, 0]⟩, ⟨1, 1, [100]⟩, ⟨1, 1, [0]⟩]

def outEx : MexOutput :=
  match mexFunction env0 2 callEx with
  | .ok o => o
  | .error _ => ⟨⟨0, 0, []⟩, none, false⟩

def rmEx : MxArray := outEx.rotMat.getD ⟨0, 0, []⟩

def callEx0 : List MxArray := [⟨3, 0, []⟩, ⟨1, 1, [100]⟩, ⟨1, 1, [0]⟩]

def outEx0 : MexOutput :=
  match mexFunction env0 1 callEx0 with
  | .ok o => o
  | .error _ => ⟨⟨0, 0, []⟩, none, false⟩

/-- C7: every successful call returns a batch of exactly the input's
row dimension and vector count, with a well-formed data block of
`numRow * numVec` entries; in particular an `N = 0` input yields an
empty output batch of the same dimension (the witness exhibits such a
call succeeding without error). -/
theorem output_shape_preserved (env : SofaEnv) (nlhs : Nat) (prhs : List MxArray)
    (out : MexOutput) (h : mexFunction env nlhs prhs = .ok out) :
    out.vec.m = (prhs.getD 0 ⟨0, 0, []⟩).m
    ∧ out.vec.n = (prhs.getD 0 ⟨0, 0, []⟩).n
    ∧ out.vec.data.length = out.vec.m * out.vec.n
    ∧ ((prhs.getD 0 ⟨0, 0, []⟩).n = 0 → out.vec.data = []) := by
  simp only [mexFunction] at h
  split at h
  · exact Except.noConfusion h
  split at h
  · exact Except.noConfusion h
  split at h
  · exact Except.noConfusion h
  next hdim =>
    split at h
    · exact Except.noConfusion h
    next dX dY warn heq =>
      injection h with h
      subst h
      have hlen := transformData_length
        (computeCIRS2GCRS env (getDoubleFromMatlab (prhs.getD 1 ⟨0, 0, []⟩))
          (getDoubleFromMatlab (prhs.getD 2 ⟨0, 0, []⟩)) dX dY)
        (prhs.getD 0 ⟨0, 0, []⟩).m (prhs.getD 0 ⟨0, 0, []⟩).n
        (prhs.getD 0 ⟨0, 0, []⟩).data (not_not.mp hdim)
      refine ⟨rfl, rfl, hlen, ?_⟩
      intro h0
      apply List.length_eq_zero.mp
      rw [hlen, h0, Nat.mul_zero]

theorem output_shape_preserved_witness :
    mexFunction env0 1 callEx0 = .ok outEx0
    ∧ (outEx0.vec.m = (callEx0.getD 0 ⟨0, 0, []⟩).m
      ∧ outEx0.vec.n = (callEx0.getD 0 ⟨0, 0, []⟩).n
      ∧ outEx0.vec.data.length = outEx0.vec.m * outEx0.vec.n
      ∧ ((callEx0.getD 0 ⟨0, 0, []⟩).n = 0 → outEx0.vec.data = [])) :=
  ⟨rfl, output_shape_preserved env0 1 callEx0 outEx0 rfl⟩

/-- C9: when the rotation-matrix output is requested, the returned 3×3
array stores, at column-major flat index `i + 3*j`, exactly
`CIRS2GCRS[i][j]` — and that same matrix `R`, applied per vector, is
the one that produced the output batch. -/
theorem rotMat_convention (env : SofaEnv) (nlhs : Nat) (prhs : List MxArray)
    (out : MexOutput) (rm : MxArray)
    (h : mexFunction env nlhs prhs = .ok out) (hrm : out.rotMat = some rm) :
    rm.m = 3 ∧ rm.n = 3
    ∧ ∃ R : Mat3,
        (∀ i j : Fin 3, rm.data.getD (i.1 + 3 * j.1) 0 = R i j)
        ∧ out.vec.data = transformData R (prhs.getD 0 ⟨0, 0, []⟩).m
            (prhs.getD 0 ⟨0, 0, []⟩).n (prhs.getD 0 ⟨0, 0, []⟩).data := by
  simp only [mexFunction] at h
  split at h
  · exact Except.noConfusion h
  split at h
  · exact Except.noConfusion h
  split at h
  · exact Except.noConfusion h
  split at h
  · exact Except.noConfusion h
  next dX dY warn heq =>
    injection h with h
    subst h
    simp only at hrm
    split at hrm
    · injection hrm with hrm
      subst hrm
      exact ⟨rfl, rfl,
        computeCIRS2GCRS env (getDoubleFromMatlab (prhs.getD 1 ⟨0, 0, []⟩))
          (getDoubleFromMatlab (prhs.getD 2 ⟨0, 0, []⟩)) dX dY,
        fun i j => by fin_cases i <;> fin_cases j <;> rfl, rfl⟩
    · exact Option.noConfusion hrm

theorem rotMat_convention_witness :
    mexFunction env0 2 callEx = .ok outEx
    ∧ outEx.rotMat = some rmEx
    ∧ (rmEx.m = 3 ∧ rmEx.n = 3
      ∧ ∃ R : Mat3,
          (∀ i j : Fin 3, rmEx.data.getD (i.1 + 3 * j.1) 0 = R i j)
          ∧ outEx.vec.data = transformData R (callEx.getD 0 ⟨0, 0, []⟩).m
              (callEx.getD 0 ⟨0, 0, []⟩).n (callEx.getD 0 ⟨0, 0, []⟩).data) :=
  ⟨rfl, rfl, rotMat_convention env0 2 callEx outEx rmEx rfl rfl⟩

end CIRS2GCRS
